import Mathlib

/-!
Verification of the EpiSense data pipeline.

This file embeds the core of the repository:

* `src/data/prepare_data.py` (steps 7-12: YEAR/MONTH time-dimension selection,
  thousands-unit adjustment, group-by aggregation, cases/population left merge,
  `cases_per_100k`, per-country sort, lags and the 3-year moving average);
* `src/data/risk_score.py` (the batch rescaling of raw anomaly magnitudes to
  the 0-100 `risk_score`);
* the "Recalculate from Cloud" handler of `src/app.py` (lines 149-172),
  including the pandas index-alignment semantics of the score assignment.

Numeric values are modelled as exact rationals (the scripts use IEEE floats;
every claim below is about the algebraic dataflow, not rounding).  Pandas
dataframes are modelled as lists of records; a dataframe column that a pandas
operation drops is reflected in the type of the produced rows, and column
access on a frame that lacks the column is an `Except.error` (pandas
`KeyError`).  The inputs `dengue` and `pop` of the pipeline are the row sets
produced by steps 1-6 of `prepare_data.py` (COUNTRY-level rows classified as
dengue-case rows resp. population rows, with the normalised name columns
already attached); no claim quantifies over the classification itself.
-/

/-! ### Character/string helpers (kernel-reducible replacements for the
pandas string primitives used by the script) -/

/-- Lexicographic strict comparison of character lists by code point, the
order pandas uses when sorting string keys. -/
def lexLtB : List Char → List Char → Bool
  | [], [] => false
  | [], _ :: _ => true
  | _ :: _, [] => false
  | a :: as, b :: bs => decide (a < b) || (a == b && lexLtB as bs)

/-- Code-point order on strings (structural, so that the kernel can
evaluate it on literals). -/
def strLtB (a b : String) : Bool := lexLtB a.data b.data

/-- Decides whether the second character list occurs at the head of the
first. -/
def headMatchB : List Char → List Char → Bool
  | _, [] => true
  | [], _ :: _ => false
  | a :: as, b :: bs => a == b && headMatchB as bs

/-- Decides whether `pat` occurs contiguously inside `hay`. -/
def subOccursB (hay pat : List Char) : Bool :=
  headMatchB hay pat ||
    (match hay with
     | [] => false
     | _ :: t => subOccursB t pat)

/-- Plain-substring containment, the semantics of
`Series.str.contains(pat)` for the literal patterns "thousand" and "mil"
used at lines 83-85 of `prepare_data.py`. -/
def containsSub (hay pat : String) : Bool := subOccursB hay.data pat.data

/-- Reads a digit string as a natural number; `none` when empty or when a
non-digit occurs. -/
def digitsToNat : List Char → Option Nat
  | [] => none
  | l => go l 0
where
  go : List Char → Nat → Option Nat
    | [], acc => some acc
    | c :: cs, acc =>
      if 48 ≤ c.toNat && c.toNat ≤ 57 then go cs (acc * 10 + (c.toNat - 48))
      else none

/-- Model of Python `int(s)` for the strings fed to `astype(int)`:
an optional minus sign followed by digits (whitespace and underscore
tolerance of Python `int` is not reproduced; no claim exercises it). -/
def parseIntStr (s : String) : Option Int :=
  match s.data with
  | '-' :: rest => (digitsToNat rest).map (fun n => -(n : Int))
  | l => (digitsToNat l).map (fun n => (n : Int))

/-- Model of `time_dim.astype(str).str.slice(0, 4).astype(int)`
(lines 63, 71 and 103 of `prepare_data.py`). -/
def parseYear (time_dim : String) : Option Int := parseIntStr (time_dim.take 4)

/-! ### Input rows -/

/-- One row of the classified `dengue` / `pop` frames entering step 7 of
`prepare_data.py`: the original CSV columns plus the normalised name
columns added at step 3.  `numeric_value` is assumed present (rows with a
missing measurement are not exercised by any claim). -/
structure Row where
  spatial_dim : String
  spatial_dim_en : String
  spatial_dim_es : String
  indicator_name_norm : String
  nombre_indicador_norm : String
  time_dim_type : String
  time_dim : String
  numeric_value : ℚ
deriving DecidableEq

/-- Line 56: `"YEAR" in dengue["time_dim_type"].unique()` — the branch
condition of step 7, read from the dengue (case) rows only. -/
def hasYearRows (dengue : List Row) : Bool :=
  dengue.any (fun r => r.time_dim_type == "YEAR")

/-! ### MONTH-to-year aggregation (the `else` branch, lines 60-76) -/

/-- Output row of the MONTH-branch `groupby(...)["numeric_value"].sum()/.mean()`:
pandas keeps exactly the grouping key and the aggregated column, so these
rows no longer carry the indicator-name columns nor `time_dim`. -/
structure ARow where
  spatial_dim : String
  spatial_dim_en : String
  spatial_dim_es : String
  year : Int
  numeric_value : ℚ
deriving DecidableEq

/-- Columns of the MONTH-branch aggregated frames (grouping key plus the
aggregated value column). -/
def monthAggCols : List String :=
  ["spatial_dim", "spatial_dim_en", "spatial_dim_es", "year", "numeric_value"]

/-- Columns of the frames that enter step 7 (original CSV columns plus the
normalised name columns of step 3); the YEAR branch only filters rows and
keeps all of them. -/
def rawCols : List String :=
  ["indicator_name", "nombre_indicador", "spatial_dim_type", "spatial_dim",
   "spatial_dim_en", "spatial_dim_es", "time_dim_type", "time_dim",
   "numeric_value", "indicator_name_norm", "nombre_indicador_norm"]

/-- Grouping key of the MONTH-branch aggregation
(`["spatial_dim", "spatial_dim_en", "spatial_dim_es", "year"]`). -/
abbrev AKey := String × String × String × Int

def aKeyOf (p : Row × Int) : AKey :=
  (p.1.spatial_dim, p.1.spatial_dim_en, p.1.spatial_dim_es, p.2)

/-- Lexicographic comparison on the MONTH-branch grouping key (pandas
sorts group keys). -/
def aKeyLeB (a b : AKey) : Bool :=
  strLtB a.1 b.1 || (a.1 == b.1 &&
    (strLtB a.2.1 b.2.1 || (a.2.1 == b.2.1 &&
      (strLtB a.2.2.1 b.2.2.1 || (a.2.2.1 == b.2.2.1 &&
        decide (a.2.2.2 ≤ b.2.2.2))))))

def aKeyLe (a b : AKey) : Prop := aKeyLeB a b = true

instance : DecidableRel aKeyLe := fun a b => instDecidableEqBool _ _

/-- `rows[rows.time_dim_type == "MONTH"]`. -/
def monthRows (l : List Row) : List Row :=
  l.filter (fun r => r.time_dim_type == "MONTH")

/-- `assign(year = time_dim.astype(str).str.slice(0,4).astype(int))`:
pandas evaluates the whole column, raising `ValueError` if any entry fails
to parse. -/
def withYears : List Row → Except String (List (Row × Int))
  | [] => .ok []
  | r :: rest =>
    match parseYear r.time_dim with
    | none => .error "ValueError: invalid literal for int"
    | some y => (withYears rest).map (fun t => (r, y) :: t)

/-- Sum aggregation of a grouped column (`.sum()`). -/
def sumAgg (l : List ℚ) : ℚ := l.sum

/-- Mean aggregation of a grouped column (`.mean()`). -/
def meanAgg (l : List ℚ) : ℚ := l.sum / l.length

/-- `groupby(["spatial_dim","spatial_dim_en","spatial_dim_es","year"],
as_index=False)["numeric_value"].agg(...)`: one output row per distinct
key, keys sorted, value aggregated over the key's rows. -/
def groupAgg (agg : List ℚ → ℚ) (pairs : List (Row × Int)) : List ARow :=
  (List.insertionSort aKeyLe ((pairs.map aKeyOf).dedup)).map (fun k =>
    { spatial_dim := k.1, spatial_dim_en := k.2.1, spatial_dim_es := k.2.2.1,
      year := k.2.2.2,
      numeric_value := agg ((pairs.filter (fun p => aKeyOf p == k)).map
        (fun p => p.1.numeric_value)) })

/-! ### Step 7 branch outcome for each series -/

/-- The dengue series after step 7: either the YEAR-granularity rows (all
input columns kept) or the MONTH rows aggregated to years (grouping key
and value columns only). -/
inductive DengueY where
  | yearly (rows : List Row)
  | monthlyAgg (rows : List ARow)
deriving DecidableEq

/-- The population series after step 7, same two shapes. -/
inductive PopY where
  | yearly (rows : List Row)
  | monthlyAgg (rows : List ARow)
deriving DecidableEq

/-- Columns of the `pop_y` frame in each shape. -/
def PopY.cols : PopY → List String
  | .yearly _ => rawCols
  | .monthlyAgg _ => monthAggCols

def DengueY.isYearly : DengueY → Bool
  | .yearly _ => true
  | .monthlyAgg _ => false

def PopY.isYearly : PopY → Bool
  | .yearly _ => true
  | .monthlyAgg _ => false

/-- Lines 56-68: `dengue_y` — YEAR rows if any dengue row has YEAR time
type, otherwise the MONTH rows of the dengue series aggregated by sum. -/
def dengueYOf (dengue : List Row) : Except String DengueY :=
  if hasYearRows dengue then
    .ok (.yearly (dengue.filter (fun r => r.time_dim_type == "YEAR")))
  else
    (withYears (monthRows dengue)).map (fun ps => .monthlyAgg (groupAgg sumAgg ps))

/-- Lines 56-76: `pop_y` — the same single branch decision (taken from the
dengue rows' time types, line 56) applied to the population series:
YEAR-restriction in the `if` branch, MONTH aggregation by mean in the
`else` branch. -/
def popYOf (dengue pop : List Row) : Except String PopY :=
  if hasYearRows dengue then
    .ok (.yearly (pop.filter (fun r => r.time_dim_type == "YEAR")))
  else
    (withYears (monthRows pop)).map (fun ps => .monthlyAgg (groupAgg meanAgg ps))

/-! ### Thousands-unit adjustment (lines 78-88) -/

/-- Line 83-85: is the population indicator reported in thousands
(substring "thousand" in the English name or "mil" in the Spanish name)? -/
def isThousands (r : Row) : Bool :=
  containsSub r.indicator_name_norm "thousand" ||
    containsSub r.nombre_indicador_norm "mil"

/-- The `pop_y` rows after lines 80-88 (rename to `population_raw`, the
`is_thousands` flag, and the adjusted `population` column); only the
columns consumed downstream are kept. -/
structure PopRow where
  spatial_dim : String
  spatial_dim_en : String
  spatial_dim_es : String
  time_dim : String
  population : ℚ
deriving DecidableEq

/-- Lines 86-88 for a frame that does have the indicator-name columns:
`population = population_raw * 1000` where `is_thousands`, else
`population_raw`. -/
def adjustPop (rows : List Row) : List PopRow :=
  rows.map (fun r =>
    { spatial_dim := r.spatial_dim, spatial_dim_en := r.spatial_dim_en,
      spatial_dim_es := r.spatial_dim_es, time_dim := r.time_dim,
      population := if isThousands r then r.numeric_value * 1000
                    else r.numeric_value })

/-- Lines 83-88.  `pop_y["indicator_name_norm"]` is a column access: on the
YEAR-branch frame (columns `rawCols`) it succeeds and the thousands
adjustment multiplies flagged values by 1000; on the MONTH-branch frame the
aggregation has kept only `monthAggCols`, which do not contain
`indicator_name_norm`, so pandas raises `KeyError`. -/
def thousandsStep : PopY → Except String (List PopRow)
  | .yearly rows => .ok (adjustPop rows)
  | .monthlyAgg _ => .error "KeyError: indicator_name_norm"

/-! ### Step 9: groupby on the key, step 10: merge (YEAR branch, where
`"year"` is not among the columns, so the key is
`["spatial_dim", "spatial_dim_en", "spatial_dim_es", "time_dim"]`) -/

abbrev GKey := String × String × String × String

def gKeyOfRow (r : Row) : GKey :=
  (r.spatial_dim, r.spatial_dim_en, r.spatial_dim_es, r.time_dim)

def gKeyOfPop (r : PopRow) : GKey :=
  (r.spatial_dim, r.spatial_dim_en, r.spatial_dim_es, r.time_dim)

/-- Lexicographic comparison of grouping keys (pandas sorts group keys). -/
def gKeyLeB (a b : GKey) : Bool :=
  strLtB a.1 b.1 || (a.1 == b.1 &&
    (strLtB a.2.1 b.2.1 || (a.2.1 == b.2.1 &&
      (strLtB a.2.2.1 b.2.2.1 || (a.2.2.1 == b.2.2.1 &&
        (strLtB a.2.2.2 b.2.2.2 || a.2.2.2 == b.2.2.2))))))

def gKeyLe (a b : GKey) : Prop := gKeyLeB a b = true

instance : DecidableRel gKeyLe := fun a b => instDecidableEqBool _ _

/-- `dengue_y` after line 95 (`groupby(key)["dengue_cases"].sum()`):
grouping key plus the summed case count. -/
structure DRow where
  spatial_dim : String
  spatial_dim_en : String
  spatial_dim_es : String
  time_dim : String
  dengue_cases : ℚ
deriving DecidableEq

def gKeyOfD (r : DRow) : GKey :=
  (r.spatial_dim, r.spatial_dim_en, r.spatial_dim_es, r.time_dim)

/-- `pop_y` after line 96 (`groupby(key)["population"].mean()`). -/
structure PGRow where
  spatial_dim : String
  spatial_dim_en : String
  spatial_dim_es : String
  time_dim : String
  population : ℚ
deriving DecidableEq

def gKeyOfPG (r : PGRow) : GKey :=
  (r.spatial_dim, r.spatial_dim_en, r.spatial_dim_es, r.time_dim)

/-- Line 95: group the dengue rows of the YEAR branch by the 4-part key and
sum `dengue_cases` (the renamed `numeric_value`). -/
def dengueGroups (rows : List Row) : List DRow :=
  (List.insertionSort gKeyLe ((rows.map gKeyOfRow).dedup)).map (fun k =>
    { spatial_dim := k.1, spatial_dim_en := k.2.1, spatial_dim_es := k.2.2.1,
      time_dim := k.2.2.2,
      dengue_cases := sumAgg ((rows.filter (fun r => gKeyOfRow r == k)).map
        (fun r => r.numeric_value)) })

/-- Line 96: group the adjusted population rows by the same key and average
`population`. -/
def popGroups (rows : List PopRow) : List PGRow :=
  (List.insertionSort gKeyLe ((rows.map gKeyOfPop).dedup)).map (fun k =>
    { spatial_dim := k.1, spatial_dim_en := k.2.1, spatial_dim_es := k.2.2.1,
      time_dim := k.2.2.2,
      population := meanAgg ((rows.filter (fun r => gKeyOfPop r == k)).map
        (fun r => r.population)) })

/-- Line 99: `dengue_y.merge(pop_y, on=key, how="left")` — every dengue
group row is kept; its population is the matching population group's value
when the key matches (keys on the right are unique after line 96), and
missing (`NaN`, modelled `none`) otherwise. -/
def mergeRows (dG : List DRow) (pG : List PGRow) : List (DRow × Option ℚ) :=
  dG.map (fun d => (d, (pG.find? (fun p => gKeyOfPG p == gKeyOfD d)).map
    (fun p => p.population)))

/-! ### Steps 10-11: year column and `cases_per_100k` -/

/-- Lines 106-108: `dengue_cases / population.replace(0, nan) * 1e5`.
A zero population is first replaced by NaN and NaN propagates through the
division and the product, so the rate is `none` exactly when the population
is missing or zero; no division fault can occur. -/
def ratePer100k (cases : ℚ) (pop : Option ℚ) : Option ℚ :=
  match pop with
  | none => none
  | some p => if p = 0 then none else some (cases / p * 100000)

/-- One row of `df_yr` after lines 99-108: merged key columns, case count,
optional population, the year parsed from `time_dim` (line 103) and the
rate. -/
structure MRow where
  spatial_dim : String
  spatial_dim_en : String
  spatial_dim_es : String
  time_dim : String
  dengue_cases : ℚ
  population : Option ℚ
  year : Int
  cases_per_100k : Option ℚ
deriving DecidableEq

/-- Lines 102-108 for one merged row. -/
def toMRow (d : DRow) (pop : Option ℚ) : Except String MRow :=
  match parseYear d.time_dim with
  | none => .error "ValueError: invalid literal for int"
  | some y => .ok
      { spatial_dim := d.spatial_dim, spatial_dim_en := d.spatial_dim_en,
        spatial_dim_es := d.spatial_dim_es, time_dim := d.time_dim,
        dengue_cases := d.dengue_cases, population := pop, year := y,
        cases_per_100k := ratePer100k d.dengue_cases pop }

def buildMRows : List (DRow × Option ℚ) → Except String (List MRow)
  | [] => .ok []
  | p :: rest =>
    match toMRow p.1 p.2 with
    | .error e => .error e
    | .ok m => (buildMRows rest).map (fun t => m :: t)

/-! ### Step 12: sort and per-country lag / moving-average features -/

/-- Line 111: `sort_values(["spatial_dim", "year"])` — ascending
lexicographic order on (country code, year). -/
def mRowLeB (a b : MRow) : Bool :=
  strLtB a.spatial_dim b.spatial_dim ||
    (a.spatial_dim == b.spatial_dim && decide (a.year ≤ b.year))

def mRowLe (a b : MRow) : Prop := mRowLeB a b = true

instance : DecidableRel mRowLe := fun a b => instDecidableEqBool _ _

def sortRows (l : List MRow) : List MRow := List.insertionSort mRowLe l

/-- A row of the final feature table `df_yr` (lines 112-116 add
`lag_cases_1`, `lag_cases_2` and `ma3_cases` to each row). -/
structure FRow extends MRow where
  lag_cases_1 : Option ℚ
  lag_cases_2 : Option ℚ
  ma3_cases : ℚ
deriving DecidableEq

/-- The last `n` entries of a list (the trailing window of
`rolling(3, min_periods=1)`). -/
def lastN (n : ℕ) (l : List ℚ) : List ℚ := l.drop (l.length - n)

def listMean (l : List ℚ) : ℚ := l.sum / l.length

/-- The `dengue_cases` column of the rows of country `c` among `pre`, in
order — the per-country history that `groupby("spatial_dim")` exposes to
`shift` and `rolling`. -/
def historyOf (pre : List MRow) (c : String) : List ℚ :=
  (pre.filter (fun r => r.spatial_dim == c)).map (fun r => r.dengue_cases)

/-- Lines 112-116 for one row, given the country's strictly-prior history
`h` (in table order): `shift(1)` is the last prior value, `shift(2)` the
one before it, and `rolling(3, min_periods=1).mean()` the mean of the up-to-3
trailing values including the current one. -/
def mkFRow (h : List ℚ) (r : MRow) : FRow :=
  { toMRow := r,
    lag_cases_1 := h.getLast?,
    lag_cases_2 := h.dropLast.getLast?,
    ma3_cases := listMean (lastN 3 (h ++ [r.dengue_cases])) }

/-- Lines 112-116 over the sorted table: a single left-to-right pass in
which each row's features are computed from the prior rows of its own
country. -/
def addFeatures : List MRow → List MRow → List FRow
  | _, [] => []
  | pre, r :: rest =>
    mkFRow (historyOf pre r.spatial_dim) r :: addFeatures (pre ++ [r]) rest

/-- The same pass restricted to a single country's rows, with `h` the
country's already-seen case values. -/
def attachF : List ℚ → List MRow → List FRow
  | _, [] => []
  | h, r :: rest => mkFRow h r :: attachF (h ++ [r.dengue_cases]) rest

/-! ### The whole Normalizer/Aligner pipeline (steps 7-12) -/

/-- Steps 7-12 of `prepare_data.py`, from the classified dengue and
population rows to the persisted feature table.  Errors reproduce the
script's uncaught exceptions (the `ValueError` of `astype(int)` and the
`KeyError` of the thousands detection on the MONTH-branch frame).  The
final `monthlyAgg` arm is unreachable: whenever the dengue series takes the
MONTH fallback the population series does too (single branch decision,
line 56), and `thousandsStep` has already raised on its aggregated frame. -/
def preparePipeline (dengue pop : List Row) : Except String (List FRow) := do
  let dY ← dengueYOf dengue
  let pY ← popYOf dengue pop
  let popAdj ← thousandsStep pY
  match dY with
  | .yearly rows =>
    let dG := dengueGroups rows
    let pG := popGroups popAdj
    let mrows ← buildMRows (mergeRows dG pG)
    .ok (addFeatures [] (sortRows mrows))
  | .monthlyAgg _ => .error "unreachable"

/-! ### Observation helpers for the feature table -/

/-- The rows of country `c`, in table order (the country's sub-sequence of
the sorted feature table). -/
def countryRows (ft : List FRow) (c : String) : List FRow :=
  ft.filter (fun r => r.spatial_dim == c)

/-- The case count of the k-th row of a row list (0 when out of range). -/
def casesAt (rows : List FRow) (k : ℕ) : ℚ :=
  ((rows.get? k).map (fun r => r.dengue_cases)).getD 0

/-! ### The anomaly scorer (`risk_score.py`) -/

/-- The epsilon of line 17 (`1e-9`). -/
def epsRS : ℚ := 1 / 1000000000

/-- `raw_scores.min()` (0 on an empty batch; the script always scores a
non-empty frame). -/
def minD : List ℚ → ℚ
  | [] => 0
  | x :: xs => xs.foldl min x

/-- `raw_scores.max()`. -/
def maxD : List ℚ → ℚ
  | [] => 0
  | x :: xs => xs.foldl max x

/-- Line 17: `100 * (raw - raw.min()) / (raw.max() - raw.min() + 1e-9)`
for one raw anomaly magnitude `x` of the batch `raw`. -/
def riskScore (raw : List ℚ) (x : ℚ) : ℚ :=
  100 * (x - minD raw) / (maxD raw - minD raw + epsRS)

/-- Line 17 applied to the whole batch. -/
def riskScores (raw : List ℚ) : List ℚ := raw.map (riskScore raw)

/-- Line 9: `df[FEATURES].fillna(0)` — the four feature columns of a row
with nulls replaced by 0. -/
def fillna0 (r : FRow) : ℚ × ℚ × ℚ × ℚ :=
  ((r.cases_per_100k).getD 0, (r.lag_cases_1).getD 0,
   (r.lag_cases_2).getD 0, r.ma3_cases)

def prepFeatures (l : List FRow) : List (ℚ × ℚ × ℚ × ℚ) := l.map fillna0

/-- Lines 12-17: fit the anomaly model on the prepared batch and rescale
the raw magnitudes.  The isolation forest is an external library call,
modelled as an arbitrary function `scoreFn` of the seed
(`random_state=42`) and the batch — exactly the capability the design
requires of it. -/
def scorerRun (scoreFn : ℕ → List (ℚ × ℚ × ℚ × ℚ) → List ℚ) (seed : ℕ)
    (rows : List FRow) : List ℚ :=
  riskScores (scoreFn seed (prepFeatures rows))

/-! ### The "Recalculate from Cloud" handler (`app.py` lines 149-172)

The year-filtered view `dfy = df[df["year"] == year].copy()` keeps the
positional index labels the rows had in the full table (`load_csv` returns
a frame with the default 0..N-1 range index and nothing resets it), and
`dfy["risk_score"] = pd.Series(data["risk_score"])` aligns the fresh
series (indexed 0..m-1) with those labels, not with submission order.
JSON values are modelled only deep enough for the exchanged payloads:
numeric arrays, numbers, strings and objects. -/

/-- A JSON value of the scorer exchange. -/
inductive JVal where
  | str (s : String)
  | num (q : ℚ)
  | arr (xs : List ℚ)
  | obj (fields : List (String × JVal))

/-- One row of `dfy`: its pandas index label (position in the full CSV
table) and the five relevant columns. -/
structure AppRow where
  idxLabel : ℕ
  cases_per_100k : Option ℚ
  lag_cases_1 : Option ℚ
  lag_cases_2 : Option ℚ
  ma3_cases : Option ℚ
  risk_score : Option ℚ
deriving DecidableEq

/-- Lines 150-154: the POST payload — the four features of each `dfy` row
in row order, nulls replaced by 0 (`fillna(0).to_dict("records")`). -/
def payloadOf (dfy : List AppRow) : List (ℚ × ℚ × ℚ × ℚ) :=
  dfy.map (fun r =>
    ((r.cases_per_100k).getD 0, (r.lag_cases_1).getD 0,
     (r.lag_cases_2).getD 0, (r.ma3_cases).getD 0))

/-- What came back from `requests.post`: a transport-level failure
(connection error, timeout, or a `raise_for_status` HTTP error) or a
parsed response body. -/
inductive ApiResult where
  | transportFail (msg : String)
  | body (v : JVal)

/-- The handler's visible outcome: the `st.success` path that rewrites the
scores, or an `st.error` report. -/
inductive Outcome where
  | updated
  | reportErr (msg : String)
deriving DecidableEq

/-- Lines 160-162: `if isinstance(data, str): data = json.loads(data)` —
a string body is decoded first; `decode` stands for `json.loads`, whose
exceptions the handler's `except` catches. -/
def decodeStep (decode : String → Except String JVal) : JVal → Except String JVal
  | .str s => decode s
  | v => .ok v

/-- Line 163: `"risk_score" not in data` — Python membership: key lookup on
a dict, element membership on a list (never the string "risk_score" in a
numeric array), substring on a string, and a `TypeError` on a number. -/
def hasRiskKey : JVal → Except String Bool
  | .obj fields => .ok (fields.any (fun f => f.1 == "risk_score"))
  | .arr _ => .ok false
  | .str s => .ok (containsSub s "risk_score")
  | .num _ => .error "TypeError: argument of type is not iterable"

/-- Line 167, first half: `data["risk_score"]` and `pd.Series(...)` — the
handler is modelled for the contract's shape, a numeric sequence; indexing
a non-object raises, as does building the series from a non-sequence. -/
def extractScores : JVal → Except String (List ℚ)
  | .obj fields =>
    match fields.find? (fun f => f.1 == "risk_score") with
    | some (_, .arr xs) => .ok xs
    | some _ => .error "risk_score is not a numeric sequence"
    | none => .error "KeyError: risk_score"
  | _ => .error "TypeError: value is not subscriptable"

/-- Line 167, second half: `dfy["risk_score"] = pd.Series(rs)` — pandas
aligns the new series (indexed 0..len(rs)-1) with each row's index label:
the row labelled `l` receives `rs[l]`, and NaN (`none`) when `l` is out of
range.  Submission order plays no role. -/
def assignScores (dfy : List AppRow) (rs : List ℚ) : List AppRow :=
  dfy.map (fun r => { r with risk_score := rs.get? r.idxLabel })

/-- Lines 155-172: the whole `try/except` of the "Recalculate from Cloud
now" button.  Every raised exception lands in the `except` arm (an
`st.error`, state untouched); a body without `risk_score` is reported via
`st.error` without touching the scores; only the success arm rewrites
`dfy["risk_score"]`. -/
def recalcHandler (decode : String → Except String JVal) (dfy : List AppRow)
    (res : ApiResult) : List AppRow × Outcome :=
  match res with
  | .transportFail m => (dfy, .reportErr m)
  | .body d0 =>
    match decodeStep decode d0 with
    | .error m => (dfy, .reportErr m)
    | .ok d =>
      match hasRiskKey d with
      | .error m => (dfy, .reportErr m)
      | .ok false => (dfy, .reportErr "Response missing risk_score")
      | .ok true =>
        match extractScores d with
        | .error m => (dfy, .reportErr m)
        | .ok rs => (assignScores dfy rs, .updated)

/-- The 4-part grouping key read off a merged row (its key columns are
copied unchanged from the dengue group row). -/
def gKeyOfM (r : MRow) : GKey :=
  (r.spatial_dim, r.spatial_dim_en, r.spatial_dim_es, r.time_dim)

/-! ### Concrete inputs for counterexamples and witnesses -/

/-- Dengue YEAR rows for one country with observed years 2019 and 2021 and
year 2020 absent. -/
def ceDengueGap : List Row :=
  [{ spatial_dim := "ABC", spatial_dim_en := "Abc", spatial_dim_es := "AbcEs",
     indicator_name_norm := "dengue cases",
     nombre_indicador_norm := "casos de dengue",
     time_dim_type := "YEAR", time_dim := "2021", numeric_value := 30 },
   { spatial_dim := "ABC", spatial_dim_en := "Abc", spatial_dim_es := "AbcEs",
     indicator_name_norm := "dengue cases",
     nombre_indicador_norm := "casos de dengue",
     time_dim_type := "YEAR", time_dim := "2019", numeric_value := 10 }]

/-- The feature table the pipeline produces from `ceDengueGap` with no
population rows. -/
def ceGapFT : List FRow :=
  [{ toMRow := { spatial_dim := "ABC", spatial_dim_en := "Abc",
                 spatial_dim_es := "AbcEs", time_dim := "2019",
                 dengue_cases := 10, population := none, year := 2019,
                 cases_per_100k := none },
     lag_cases_1 := none, lag_cases_2 := none, ma3_cases := 10 },
   { toMRow := { spatial_dim := "ABC", spatial_dim_en := "Abc",
                 spatial_dim_es := "AbcEs", time_dim := "2021",
                 dengue_cases := 30, population := none, year := 2021,
                 cases_per_100k := none },
     lag_cases_1 := some 10, lag_cases_2 := none, ma3_cases := 20 }]

/-- A single dengue YEAR row. -/
def ceDengueYear : List Row :=
  [{ spatial_dim := "ABC", spatial_dim_en := "Abc", spatial_dim_es := "AbcEs",
     indicator_name_norm := "dengue cases",
     nombre_indicador_norm := "casos de dengue",
     time_dim_type := "YEAR", time_dim := "2020", numeric_value := 10 }]

/-- A single dengue MONTH row (no YEAR row at all, so the fallback runs). -/
def ceDengueMonth : List Row :=
  [{ spatial_dim := "ABC", spatial_dim_en := "Abc", spatial_dim_es := "AbcEs",
     indicator_name_norm := "dengue cases",
     nombre_indicador_norm := "casos de dengue",
     time_dim_type := "MONTH", time_dim := "2020-01", numeric_value := 10 }]

/-- A single population MONTH row (the population series has no YEAR row). -/
def cePopMonth : List Row :=
  [{ spatial_dim := "ABC", spatial_dim_en := "Abc", spatial_dim_es := "AbcEs",
     indicator_name_norm := "total population",
     nombre_indicador_norm := "poblacion total",
     time_dim_type := "MONTH", time_dim := "2020-01", numeric_value := 5 }]

/-- The MONTH aggregation of `cePopMonth`. -/
def ceAggPop : List ARow :=
  [{ spatial_dim := "ABC", spatial_dim_en := "Abc", spatial_dim_es := "AbcEs",
     year := 2020, numeric_value := 5 }]

/-- Dengue YEAR rows for one country code appearing under two different
English names in the same year. -/
def ceDengueDupNames : List Row :=
  [{ spatial_dim := "ABC", spatial_dim_en := "Foo", spatial_dim_es := "X",
     indicator_name_norm := "dengue cases",
     nombre_indicador_norm := "casos de dengue",
     time_dim_type := "YEAR", time_dim := "2020", numeric_value := 1 },
   { spatial_dim := "ABC", spatial_dim_en := "Bar", spatial_dim_es := "X",
     indicator_name_norm := "dengue cases",
     nombre_indicador_norm := "casos de dengue",
     time_dim_type := "YEAR", time_dim := "2020", numeric_value := 2 }]

/-- The feature table produced from `ceDengueDupNames`: two rows survive
with the same (country code, year). -/
def ceDupFT : List FRow :=
  [{ toMRow := { spatial_dim := "ABC", spatial_dim_en := "Bar",
                 spatial_dim_es := "X", time_dim := "2020",
                 dengue_cases := 2, population := none, year := 2020,
                 cases_per_100k := none },
     lag_cases_1 := none, lag_cases_2 := none, ma3_cases := 2 },
   { toMRow := { spatial_dim := "ABC", spatial_dim_en := "Foo",
                 spatial_dim_es := "X", time_dim := "2020",
                 dengue_cases := 1, population := none, year := 2020,
                 cases_per_100k := none },
     lag_cases_1 := some 2, lag_cases_2 := none, ma3_cases := 3/2 }]

/-- A year-filtered dashboard view whose two rows sat at positions 2 and 3
of the full CSV table (the selected year is not the file's first year), as
`df[df["year"] == year]` produces. -/
def ceDfy : List AppRow :=
  [{ idxLabel := 2, cases_per_100k := some 1, lag_cases_1 := some 2,
     lag_cases_2 := some 3, ma3_cases := some 4, risk_score := some 50 },
   { idxLabel := 3, cases_per_100k := some 5, lag_cases_1 := some 6,
     lag_cases_2 := some 7, ma3_cases := some 8, risk_score := some 60 }]

/-! ## Lemmas about the code-point comparator -/

theorem lexLtB_irrefl : ∀ l : List Char, lexLtB l l = false
  | [] => rfl
  | a :: as => by simp [lexLtB, lexLtB_irrefl as]

theorem lexLtB_trans : ∀ {l₁ l₂ l₃ : List Char}, lexLtB l₁ l₂ = true →
    lexLtB l₂ l₃ = true → lexLtB l₁ l₃ = true
  | [], [], _, h₁, _ => by simp [lexLtB] at h₁
  | [], _ :: _, [], _, h₂ => by simp [lexLtB] at h₂
  | [], _ :: _, _ :: _, _, _ => by simp [lexLtB]
  | _ :: _, [], _, h₁, _ => by simp [lexLtB] at h₁
  | _ :: _, _ :: _, [], _, h₂ => by simp [lexLtB] at h₂
  | a :: as, b :: bs, c :: cs, h₁, h₂ => by
    simp only [lexLtB, Bool.or_eq_true, Bool.and_eq_true, decide_eq_true_eq,
      beq_iff_eq] at h₁ h₂ ⊢
    rcases h₁ with h₁ | ⟨rfl, h₁⟩
    · rcases h₂ with h₂ | ⟨rfl, h₂⟩
      · exact Or.inl (lt_trans h₁ h₂)
      · exact Or.inl h₁
    · rcases h₂ with h₂ | ⟨rfl, h₂⟩
      · exact Or.inl h₂
      · exact Or.inr ⟨rfl, lexLtB_trans h₁ h₂⟩

theorem lexLtB_total : ∀ l₁ l₂ : List Char,
    lexLtB l₁ l₂ = true ∨ l₁ = l₂ ∨ lexLtB l₂ l₁ = true
  | [], [] => Or.inr (Or.inl rfl)
  | [], _ :: _ => Or.inl (by simp [lexLtB])
  | _ :: _, [] => Or.inr (Or.inr (by simp [lexLtB]))
  | a :: as, b :: bs => by
    rcases lt_trichotomy a b with h | rfl | h
    · exact Or.inl (by simp [lexLtB, h])
    · rcases lexLtB_total as bs with h | rfl | h
      · exact Or.inl (by simp [lexLtB, h])
      · exact Or.inr (Or.inl rfl)
      · exact Or.inr (Or.inr (by simp [lexLtB, h]))
    · exact Or.inr (Or.inr (by simp [lexLtB, h]))

theorem strLtB_irrefl (s : String) : strLtB s s = false := lexLtB_irrefl s.data

theorem strLtB_trans {a b c : String} (h₁ : strLtB a b = true)
    (h₂ : strLtB b c = true) : strLtB a c = true := lexLtB_trans h₁ h₂

theorem strLtB_total (a b : String) :
    strLtB a b = true ∨ a = b ∨ strLtB b a = true := by
  rcases lexLtB_total a.data b.data with h | h | h
  · exact Or.inl h
  · refine Or.inr (Or.inl ?_)
    cases a with
    | mk da => cases b with
      | mk db => exact congrArg String.mk h
  · exact Or.inr (Or.inr h)

/-! ## The table sort of line 111 is a total preorder sort -/

instance : IsTotal MRow mRowLe := by
  constructor
  intro a b
  unfold mRowLe mRowLeB
  rcases strLtB_total a.spatial_dim b.spatial_dim with h | h | h
  · exact Or.inl (by simp [h])
  · rcases le_total a.year b.year with hy | hy
    · exact Or.inl (by simp [h, hy])
    · exact Or.inr (by simp [h, hy])
  · exact Or.inr (by simp [h])

instance : IsTrans MRow mRowLe := by
  constructor
  intro a b c hab hbc
  unfold mRowLe mRowLeB at hab hbc ⊢
  simp only [Bool.or_eq_true, Bool.and_eq_true, decide_eq_true_eq,
    beq_iff_eq] at hab hbc ⊢
  rcases hab with hab | ⟨hd₁, hy₁⟩
  · rcases hbc with hbc | ⟨hd₂, hy₂⟩
    · exact Or.inl (strLtB_trans hab hbc)
    · exact Or.inl (hd₂ ▸ hab)
  · rcases hbc with hbc | ⟨hd₂, hy₂⟩
    · exact Or.inl (hd₁ ▸ hbc)
    · exact Or.inr ⟨hd₁.trans hd₂, le_trans hy₁ hy₂⟩

theorem sortRows_perm (l : List MRow) : List.Perm (sortRows l) l :=
  List.perm_insertionSort mRowLe l

theorem sortRows_sorted (l : List MRow) : List.Sorted mRowLe (sortRows l) :=
  List.sorted_insertionSort mRowLe l

/-- Among rows of one country, the table order of line 111 is ascending in
`year`. -/
theorem mRowLe_year {a b : MRow} (h : mRowLe a b)
    (hd : a.spatial_dim = b.spatial_dim) : a.year ≤ b.year := by
  unfold mRowLe mRowLeB at h
  rw [hd] at h
  simpa [strLtB_irrefl] using h

/-! ## Structure of the per-country feature pass (lines 111-116) -/

theorem except_bind_ok {α β : Type} (a : α) (f : α → Except String β) :
    (Except.ok a >>= f : Except String β) = f a := rfl

theorem except_bind_err {α β : Type} (e : String) (f : α → Except String β) :
    (Except.error e >>= f : Except String β) = .error e := rfl

theorem mkFRow_toMRow (h : List ℚ) (r : MRow) : (mkFRow h r).toMRow = r := rfl

theorem historyOf_nil (c : String) : historyOf [] c = [] := rfl

theorem historyOf_append_eq (pre : List MRow) (r : MRow) {c : String}
    (hc : r.spatial_dim = c) :
    historyOf (pre ++ [r]) c = historyOf pre c ++ [r.dengue_cases] := by
  simp [historyOf, List.filter_append, hc]

theorem historyOf_append_ne (pre : List MRow) (r : MRow) {c : String}
    (hc : ¬r.spatial_dim = c) :
    historyOf (pre ++ [r]) c = historyOf pre c := by
  simp [historyOf, List.filter_append, hc]

/-- Filtering the featurized table to one country is the same as running
the single-country pass on that country's rows, starting from the
country's history among the preceding rows. -/
theorem addFeatures_filter (pre l : List MRow) (c : String) :
    (addFeatures pre l).filter (fun fr => fr.spatial_dim == c) =
      attachF (historyOf pre c) (l.filter (fun r => r.spatial_dim == c)) := by
  induction l generalizing pre with
  | nil => simp [addFeatures, attachF]
  | cons r rest ih =>
    by_cases hc : r.spatial_dim = c
    · have h1 : ((mkFRow (historyOf pre r.spatial_dim) r).spatial_dim == c) = true := by
        simp [mkFRow, hc]
      have h2 : (r.spatial_dim == c) = true := by simp [hc]
      simp only [addFeatures, List.filter_cons, h1, h2, if_true, attachF]
      rw [ih (pre ++ [r]), historyOf_append_eq pre r hc, hc]
    · have h1 : ((mkFRow (historyOf pre r.spatial_dim) r).spatial_dim == c) = false := by
        simp [mkFRow, hc]
      have h2 : (r.spatial_dim == c) = false := by simp [hc]
      simp only [addFeatures, List.filter_cons, h1, h2, Bool.false_eq_true, if_false]
      rw [ih (pre ++ [r]), historyOf_append_ne pre r hc]

theorem attachF_length (h : List ℚ) (l : List MRow) :
    (attachF h l).length = l.length := by
  induction l generalizing h with
  | nil => rfl
  | cons r rest ih => simp [attachF, ih]

theorem attachF_getElem? (h : List ℚ) (l : List MRow) (j : ℕ) :
    (attachF h l)[j]? = (l[j]?).map
      (fun r => mkFRow (h ++ (l.take j).map (fun r => r.dengue_cases)) r) := by
  induction l generalizing h j with
  | nil => simp [attachF]
  | cons x rest ih =>
    cases j with
    | zero => simp [attachF]
    | succ j =>
      simp only [attachF, List.getElem?_cons_succ, ih (h ++ [x.dengue_cases]) j,
        List.take_succ_cons, List.map_cons]
      simp [List.append_assoc]

theorem attachF_map_toMRow (h : List ℚ) (l : List MRow) :
    (attachF h l).map (fun fr => fr.toMRow) = l := by
  induction l generalizing h with
  | nil => rfl
  | cons r rest ih => simp [attachF, mkFRow_toMRow, ih]

theorem addFeatures_map_toMRow (pre l : List MRow) :
    (addFeatures pre l).map (fun fr => fr.toMRow) = l := by
  induction l generalizing pre with
  | nil => rfl
  | cons r rest ih => simp [addFeatures, mkFRow_toMRow, ih]

/-! ## Structure of the merge and the row build (lines 99-108) -/

theorem toMRow_ok_props {d : DRow} {pop : Option ℚ} {m : MRow}
    (h : toMRow d pop = .ok m) :
    gKeyOfM m = gKeyOfD d ∧ m.dengue_cases = d.dengue_cases ∧
      m.population = pop ∧
      m.cases_per_100k = ratePer100k d.dengue_cases pop := by
  unfold toMRow at h
  cases hp : parseYear d.time_dim with
  | none => rw [hp] at h; cases h
  | some y =>
    rw [hp] at h
    cases h
    exact ⟨rfl, rfl, rfl, rfl⟩

theorem buildMRows_mem {ps : List (DRow × Option ℚ)} {mrows : List MRow}
    (h : buildMRows ps = .ok mrows) {m : MRow} (hm : m ∈ mrows) :
    ∃ p ∈ ps, toMRow p.1 p.2 = .ok m := by
  induction ps generalizing mrows with
  | nil =>
    simp only [buildMRows] at h
    cases h
    simp at hm
  | cons p rest ih =>
    simp only [buildMRows] at h
    cases ht : toMRow p.1 p.2 with
    | error e => rw [ht] at h; cases h
    | ok m0 =>
      rw [ht] at h
      cases hr : buildMRows rest with
      | error e => rw [hr] at h; cases h
      | ok t =>
        rw [hr] at h
        simp only [Except.map] at h
        cases h
        rcases List.mem_cons.mp hm with rfl | hm'
        · exact ⟨p, List.mem_cons_self p rest, ht⟩
        · rcases ih hr hm' with ⟨q, hq, hq2⟩
          exact ⟨q, List.mem_cons_of_mem p hq, hq2⟩

theorem buildMRows_keys {ps : List (DRow × Option ℚ)} {mrows : List MRow}
    (h : buildMRows ps = .ok mrows) :
    mrows.map gKeyOfM = ps.map (fun p => gKeyOfD p.1) := by
  induction ps generalizing mrows with
  | nil => simp only [buildMRows] at h; cases h; rfl
  | cons p rest ih =>
    simp only [buildMRows] at h
    cases ht : toMRow p.1 p.2 with
    | error e => rw [ht] at h; cases h
    | ok m0 =>
      rw [ht] at h
      cases hr : buildMRows rest with
      | error e => rw [hr] at h; cases h
      | ok t =>
        rw [hr] at h
        simp only [Except.map] at h
        cases h
        simp [List.map_cons, (toMRow_ok_props ht).1, ih hr]

/-- The merged pairs' left components are exactly the dengue group rows. -/
theorem mergeRows_keys (dG : List DRow) (pG : List PGRow) :
    (mergeRows dG pG).map (fun p => gKeyOfD p.1) = dG.map gKeyOfD := by
  simp [mergeRows, List.map_map, Function.comp]

/-- Key list of the dengue aggregation of line 95: the distinct input keys
(sorted); in particular it has no duplicates. -/
theorem dengueGroups_keys_nodup (rows : List Row) :
    ((dengueGroups rows).map gKeyOfD).Nodup := by
  have hmap : (dengueGroups rows).map gKeyOfD =
      List.insertionSort gKeyLe ((rows.map gKeyOfRow).dedup) := by
    simp only [dengueGroups, List.map_map]
    have hid : (gKeyOfD ∘ fun k : GKey =>
        ({ spatial_dim := k.1, spatial_dim_en := k.2.1, spatial_dim_es := k.2.2.1,
           time_dim := k.2.2.2,
           dengue_cases := sumAgg ((rows.filter (fun r => gKeyOfRow r == k)).map
             (fun r => r.numeric_value)) } : DRow)) = id := rfl
    rw [hid, List.map_id]
  rw [hmap]
  exact ((List.perm_insertionSort gKeyLe _).nodup_iff).mpr
    (List.nodup_dedup _)

/-- Any successful pipeline run went through the YEAR branch, and its
output is the featurized sort of the merged table. -/
theorem pipeline_ok_elim {dengue pop : List Row} {ft : List FRow}
    (h : preparePipeline dengue pop = .ok ft) :
    hasYearRows dengue = true ∧
    ∃ mrows,
      buildMRows (mergeRows
        (dengueGroups (dengue.filter (fun r => r.time_dim_type == "YEAR")))
        (popGroups (adjustPop (pop.filter (fun r => r.time_dim_type == "YEAR"))))) =
          .ok mrows ∧
      ft = addFeatures [] (sortRows mrows) := by
  cases hY : hasYearRows dengue with
  | false =>
    exfalso
    unfold preparePipeline dengueYOf popYOf at h
    rw [hY] at h
    simp only [Bool.false_eq_true, if_false] at h
    cases hw : withYears (monthRows dengue) with
    | error e => rw [hw] at h; simp only [Except.map, except_bind_err] at h; cases h
    | ok ps =>
      rw [hw] at h
      simp only [Except.map, except_bind_ok] at h
      cases hw2 : withYears (monthRows pop) with
      | error e => rw [hw2] at h; simp only [Except.map, except_bind_err] at h; cases h
      | ok ps2 =>
        rw [hw2] at h
        simp only [Except.map, except_bind_ok, thousandsStep, except_bind_err] at h
        cases h
  | true =>
    refine ⟨rfl, ?_⟩
    unfold preparePipeline dengueYOf popYOf at h
    rw [hY] at h
    simp only [if_true, except_bind_ok, thousandsStep] at h
    cases hB : buildMRows (mergeRows
        (dengueGroups (dengue.filter (fun r => r.time_dim_type == "YEAR")))
        (popGroups (adjustPop (pop.filter (fun r => r.time_dim_type == "YEAR"))))) with
    | error e => rw [hB] at h; simp only [except_bind_err] at h; cases h
    | ok mrows =>
      rw [hB] at h
      simp only [except_bind_ok] at h
      cases h
      exact ⟨mrows, rfl, rfl⟩

theorem mkFRow_lag1 (h : List ℚ) (r : MRow) :
    (mkFRow h r).lag_cases_1 = h.getLast? := rfl

theorem mkFRow_ma3 (h : List ℚ) (r : MRow) :
    (mkFRow h r).ma3_cases = listMean (lastN 3 (h ++ [r.dengue_cases])) := rfl

theorem mkFRow_cases (h : List ℚ) (r : MRow) :
    (mkFRow h r).dengue_cases = r.dengue_cases := rfl

/-- A successful run's per-country sub-table is the one-country pass over
a pairwise-ordered row list of that country. -/
theorem countryRows_eq {dengue pop : List Row} {ft : List FRow}
    (h : preparePipeline dengue pop = .ok ft) (c : String) :
    ∃ rs : List MRow,
      countryRows ft c = attachF [] rs ∧
      List.Pairwise mRowLe rs ∧
      ∀ r ∈ rs, r.spatial_dim = c := by
  obtain ⟨-, mrows, -, hft⟩ := pipeline_ok_elim h
  refine ⟨(sortRows mrows).filter (fun r => r.spatial_dim == c), ?_, ?_, ?_⟩
  · rw [hft]
    unfold countryRows
    rw [addFeatures_filter, historyOf_nil]
  · exact (sortRows_sorted mrows).filter _
  · intro r hr
    have := (List.mem_filter.mp hr).2
    simpa using this

theorem casesAt_attachF (rs : List MRow) (k : ℕ) :
    casesAt (attachF [] rs) k =
      ((rs.map (fun r => r.dengue_cases))[k]?).getD 0 := by
  unfold casesAt
  rw [List.get?_eq_getElem?, attachF_getElem? [] rs k, List.getElem?_map]
  cases hk : rs[k]? <;> simp [mkFRow_cases]

/-- Value of `lag_cases_1` at the i-th row of a one-country pass: the
previous row's case count, `none` for the country's first row. -/
theorem attachF_lag1 (rs : List MRow) (i : ℕ)
    (hi : i < (attachF [] rs).length) :
    ((attachF [] rs).get ⟨i, hi⟩).lag_cases_1 =
      if i = 0 then none else some (casesAt (attachF [] rs) (i - 1)) := by
  have hi' : i < rs.length := by rwa [attachF_length] at hi
  have hget : (attachF [] rs).get ⟨i, hi⟩ =
      mkFRow ((rs.take i).map (fun r => r.dengue_cases)) (rs.get ⟨i, hi'⟩) := by
    have h1 := attachF_getElem? [] rs i
    rw [List.getElem?_eq_getElem hi, List.getElem?_eq_getElem hi'] at h1
    rw [List.get_eq_getElem, List.get_eq_getElem]
    simpa using h1
  rw [hget, mkFRow_lag1]
  cases hi0 : decide (i = 0) with
  | true =>
    have : i = 0 := of_decide_eq_true hi0
    subst this
    simp
  | false =>
    have hne : ¬i = 0 := of_decide_eq_false hi0
    have h1le : 1 ≤ i := Nat.one_le_iff_ne_zero.mpr hne
    rw [if_neg hne]
    have hlen : ((rs.take i).map (fun r => r.dengue_cases)).length = i := by
      simp [List.length_take]
      omega
    rw [List.getLast?_eq_getElem?, hlen]
    rw [List.getElem?_map, List.getElem?_take]
    rw [if_pos (by omega : i - 1 < i)]
    rw [casesAt_attachF, List.getElem?_map]
    have : i - 1 < rs.length := by omega
    rw [List.getElem?_eq_getElem this]
    simp

/-- Mean of the up-to-3-element trailing window ending at index `i`. -/
theorem ma3_window (s : List ℚ) (i : ℕ) (hi : i < s.length) :
    listMean (lastN 3 (s.take (i + 1))) =
      if i = 0 then (s[0]?).getD 0
      else if i = 1 then ((s[0]?).getD 0 + (s[1]?).getD 0) / 2
      else ((s[i-2]?).getD 0 + (s[i-1]?).getD 0 + (s[i]?).getD 0) / 3 := by
  by_cases h0 : i = 0
  · subst h0
    cases s with
    | nil => simp at hi
    | cons x t =>
      simp [lastN, listMean, List.take_succ_cons]
  · by_cases h1 : i = 1
    · subst h1
      cases s with
      | nil => simp at hi
      | cons x t =>
        cases t with
        | nil => simp at hi
        | cons y t2 =>
          rw [if_neg (by omega), if_pos rfl]
          show listMean (lastN 3 [x, y]) = _
          simp [lastN, listMean]
    · rw [if_neg h0, if_neg h1]
      have h2 : 2 ≤ i := by omega
      set t := s.take (i + 1) with ht
      have htlen : t.length = i + 1 := by
        rw [ht, List.length_take]
        omega
      have hb2 : i - 2 < t.length := by omega
      have hb1 : i - 1 < t.length := by omega
      have hb0 : i < t.length := by omega
      have hdrop : lastN 3 t = [t[i-2], t[i-1], t[i]] := by
        unfold lastN
        rw [htlen]
        have e0 : i + 1 - 3 = i - 2 := by omega
        rw [e0, List.drop_eq_getElem_cons hb2]
        have e1 : i - 2 + 1 = i - 1 := by omega
        rw [e1, List.drop_eq_getElem_cons hb1]
        have e2 : i - 1 + 1 = i := by omega
        rw [e2, List.drop_eq_getElem_cons hb0]
        rw [List.drop_eq_nil_of_le (by omega)]
      rw [hdrop]
      have hs2 : i - 2 < s.length := by omega
      have hs1 : i - 1 < s.length := by omega
      have g2 : t[i-2] = s[i-2] := List.getElem_take s
      have g1 : t[i-1] = s[i-1] := List.getElem_take s
      have g0 : t[i] = s[i] := List.getElem_take s
      rw [g2, g1, g0]
      rw [List.getElem?_eq_getElem (show i - 2 < s.length by omega)]
      rw [List.getElem?_eq_getElem (show i - 1 < s.length by omega)]
      rw [List.getElem?_eq_getElem hi]
      simp [listMean]
      ring

theorem attachF_get_eq (rs : List MRow) (i : ℕ)
    (hi : i < (attachF [] rs).length) (hi' : i < rs.length) :
    (attachF [] rs).get ⟨i, hi⟩ =
      mkFRow ((rs.take i).map (fun r => r.dengue_cases)) (rs.get ⟨i, hi'⟩) := by
  have h1 := attachF_getElem? [] rs i
  rw [List.getElem?_eq_getElem hi, List.getElem?_eq_getElem hi'] at h1
  rw [List.get_eq_getElem, List.get_eq_getElem]
  simpa using h1

/-- Value of `ma3_cases` at the i-th row of a one-country pass: the mean of
the up-to-3 trailing case counts including the current row. -/
theorem attachF_ma3 (rs : List MRow) (i : ℕ)
    (hi : i < (attachF [] rs).length) :
    ((attachF [] rs).get ⟨i, hi⟩).ma3_cases =
      if i = 0 then casesAt (attachF [] rs) 0
      else if i = 1 then
        (casesAt (attachF [] rs) 0 + casesAt (attachF [] rs) 1) / 2
      else
        (casesAt (attachF [] rs) (i - 2) + casesAt (attachF [] rs) (i - 1) +
          casesAt (attachF [] rs) i) / 3 := by
  have hi' : i < rs.length := by rwa [attachF_length] at hi
  rw [attachF_get_eq rs i hi hi', mkFRow_ma3]
  have hs : (rs.take i).map (fun r => r.dengue_cases) ++
      [(rs.get ⟨i, hi'⟩).dengue_cases] =
      (rs.map (fun r => r.dengue_cases)).take (i + 1) := by
    rw [List.map_take, List.take_succ]
    congr 1
    rw [List.getElem?_map, List.getElem?_eq_getElem hi']
    simp [List.get_eq_getElem]
  rw [hs]
  have hslen : i < (rs.map (fun r => r.dengue_cases)).length := by simpa using hi'
  rw [ma3_window _ i hslen]
  simp only [casesAt_attachF]

theorem attachF_map_year (h : List ℚ) (l : List MRow) :
    (attachF h l).map (fun fr => fr.year) = l.map (fun r => r.year) := by
  induction l generalizing h with
  | nil => rfl
  | cons r rest ih => simp [attachF, ih, mkFRow]

/-- Within every country, a successful run's feature table is in ascending
year order (line 111 sorts by country then year). -/
theorem countryRows_years_asc {dengue pop : List Row} {ft : List FRow}
    (h : preparePipeline dengue pop = .ok ft) (c : String) :
    List.Sorted (· ≤ ·) ((countryRows ft c).map (fun r => r.year)) := by
  obtain ⟨rs, heq, hpw, hmem⟩ := countryRows_eq h c
  rw [heq, attachF_map_year]
  have hpw2 : List.Pairwise (fun a b : MRow => a.year ≤ b.year) rs :=
    hpw.imp_of_mem (fun ha hb hr =>
      mRowLe_year hr (((hmem _ ha)).trans ((hmem _ hb)).symm))
  exact hpw2.map _ (fun a b hab => hab)

/-! ## Lemmas on the batch minimum and maximum of `risk_score.py` -/

theorem foldl_min_le_init (ys : List ℚ) (a : ℚ) : ys.foldl min a ≤ a := by
  induction ys generalizing a with
  | nil => exact le_refl a
  | cons y t ih => exact le_trans (ih (min a y)) (min_le_left a y)

theorem foldl_min_le_mem {x : ℚ} {ys : List ℚ} (hx : x ∈ ys) (a : ℚ) :
    ys.foldl min a ≤ x := by
  induction ys generalizing a with
  | nil => simp at hx
  | cons y t ih =>
    rcases List.mem_cons.mp hx with rfl | hx'
    · exact le_trans (foldl_min_le_init t (min a x)) (min_le_right a x)
    · exact ih hx' (min a y)

theorem minD_le {x : ℚ} {l : List ℚ} (hx : x ∈ l) : minD l ≤ x := by
  cases l with
  | nil => simp at hx
  | cons y t =>
    rcases List.mem_cons.mp hx with rfl | hx'
    · exact foldl_min_le_init t x
    · exact foldl_min_le_mem hx' y

theorem init_le_foldl_max (ys : List ℚ) (a : ℚ) : a ≤ ys.foldl max a := by
  induction ys generalizing a with
  | nil => exact le_refl a
  | cons y t ih => exact le_trans (le_max_left a y) (ih (max a y))

theorem mem_le_foldl_max {x : ℚ} {ys : List ℚ} (hx : x ∈ ys) (a : ℚ) :
    x ≤ ys.foldl max a := by
  induction ys generalizing a with
  | nil => simp at hx
  | cons y t ih =>
    rcases List.mem_cons.mp hx with rfl | hx'
    · exact le_trans (le_max_right a x) (init_le_foldl_max t (max a x))
    · exact ih hx' (max a y)

theorem le_maxD {x : ℚ} {l : List ℚ} (hx : x ∈ l) : x ≤ maxD l := by
  cases l with
  | nil => simp at hx
  | cons y t =>
    rcases List.mem_cons.mp hx with rfl | hx'
    · exact init_le_foldl_max t x
    · exact mem_le_foldl_max hx' y

theorem minD_le_maxD {l : List ℚ} (h : l ≠ []) : minD l ≤ maxD l := by
  cases l with
  | nil => exact absurd rfl h
  | cons x t => exact le_trans (foldl_min_le_init t x) (init_le_foldl_max t x)

theorem epsRS_pos : (0 : ℚ) < epsRS := by norm_num [epsRS]

theorem riskDenom_pos {raw : List ℚ} (h : raw ≠ []) :
    0 < maxD raw - minD raw + epsRS := by
  have h1 := minD_le_maxD h
  have h2 := epsRS_pos
  linarith

/-- Concrete run: the pipeline on the year-gap input (no population
rows). -/
theorem ceGap_run : preparePipeline ceDengueGap [] = .ok ceGapFT := by
  have h19 : parseYear "2019" = some 2019 := by decide
  have h21 : parseYear "2021" = some 2021 := by decide
  simp +decide [preparePipeline, dengueYOf, popYOf, hasYearRows, thousandsStep,
    adjustPop, dengueGroups, popGroups, mergeRows, buildMRows, toMRow,
    ratePer100k, sortRows, addFeatures, historyOf, mkFRow, gKeyOfRow, gKeyOfD,
    gKeyOfPG, gKeyOfPop, gKeyLe, gKeyLeB, mRowLe, mRowLeB, strLtB, lexLtB,
    sumAgg, meanAgg, listMean, lastN, ceDengueGap, ceGapFT, h19, h21,
    except_bind_ok, except_bind_err, Except.map]
  norm_num

/-- Concrete run: the pipeline on the duplicate-name input. -/
theorem ceDup_run : preparePipeline ceDengueDupNames [] = .ok ceDupFT := by
  have h20 : parseYear "2020" = some 2020 := by decide
  simp +decide [preparePipeline, dengueYOf, popYOf, hasYearRows, thousandsStep,
    adjustPop, dengueGroups, popGroups, mergeRows, buildMRows, toMRow,
    ratePer100k, sortRows, addFeatures, historyOf, mkFRow, gKeyOfRow, gKeyOfD,
    gKeyOfPG, gKeyOfPop, gKeyLe, gKeyLeB, mRowLe, mRowLeB, strLtB, lexLtB,
    sumAgg, meanAgg, listMean, lastN, ceDengueDupNames, ceDupFT, h20,
    except_bind_ok, except_bind_err, Except.map]
  norm_num

/-- Concrete run: when the dengue series has only MONTH rows, the
population series is MONTH-aggregated. -/
theorem cePopMonth_agg :
    popYOf ceDengueMonth cePopMonth = .ok (.monthlyAgg ceAggPop) := by
  have hp : parseYear "2020-01" = some 2020 := by decide
  simp +decide [popYOf, hasYearRows, ceDengueMonth, cePopMonth, monthRows,
    withYears, hp, groupAgg, aKeyOf, aKeyLe, aKeyLeB, meanAgg, strLtB, lexLtB,
    ceAggPop, Except.map]

/-- Keys of a successful run's feature table are a permutation of the
dengue aggregation's keys: the left merge and the later steps neither drop
nor duplicate case groups, whatever the population side holds. -/
theorem ftKeys_perm {dengue pop : List Row} {ft : List FRow}
    (h : preparePipeline dengue pop = .ok ft) :
    List.Perm (ft.map (fun r => gKeyOfM r.toMRow))
      ((dengueGroups (dengue.filter (fun r => r.time_dim_type == "YEAR"))).map
        gKeyOfD) := by
  obtain ⟨hY, mrows, hB, hft⟩ := pipeline_ok_elim h
  have e1 : ft.map (fun r => gKeyOfM r.toMRow) =
      (sortRows mrows).map gKeyOfM := by
    rw [hft]
    conv_rhs => rw [← addFeatures_map_toMRow [] (sortRows mrows)]
    rw [List.map_map]
    rfl
  have e2 : mrows.map gKeyOfM =
      (dengueGroups (dengue.filter (fun r => r.time_dim_type == "YEAR"))).map
        gKeyOfD := by
    rw [buildMRows_keys hB, mergeRows_keys]
  rw [e1, ← e2]
  exact (sortRows_perm mrows).map _

/-- C1, counterexample: for country "ABC" with observed years 2019 and
2021 only (year 2020 absent for that country), `lag_cases_1` at 2021 is
`some 10` — the 2019 value — and not null as the claim requires when year
Y-1 is absent: the grouped `shift(1)` of line 112 takes the country's
previous observed row, not calendar year Y-1. -/
theorem c1_counterexample :
    preparePipeline ceDengueGap [] = .ok ceGapFT ∧
    ceGapFT.map (fun r => (r.spatial_dim, r.year, r.lag_cases_1)) =
      [("ABC", 2019, none), ("ABC", 2021, some 10)] :=
  ⟨ceGap_run, rfl⟩

/-- C1, amended: within each country's sub-sequence of the feature table
(which is in ascending year order), `lag_cases_1` at the i-th row equals
`dengue_cases` at the (i-1)-th row of the same country, and is null exactly
at the country's first row.  For a pair of consecutive observed years this
gives the value the claim states; when year Y-1 is absent the lag holds the
most recent earlier observed year's value instead of null. -/
theorem c1_lag_previous_row (dengue pop : List Row) (ft : List FRow)
    (h : preparePipeline dengue pop = .ok ft) (c : String) (i : ℕ)
    (hi : i < (countryRows ft c).length) :
    List.Sorted (· ≤ ·) ((countryRows ft c).map (fun r => r.year)) ∧
    ((countryRows ft c)[i]?).map (fun r => r.lag_cases_1) =
      some (if i = 0 then none
            else some (casesAt (countryRows ft c) (i - 1))) := by
  refine ⟨countryRows_years_asc h c, ?_⟩
  obtain ⟨rs, heq, -, -⟩ := countryRows_eq h c
  rw [heq] at hi ⊢
  rw [List.getElem?_eq_getElem hi]
  have h1 := attachF_lag1 rs i hi
  rw [List.get_eq_getElem] at h1
  rw [Option.map_some', h1]

/-- Witness for the amended C1 at the concrete two-row table. -/
theorem c1_lag_witness :
    ((countryRows ceGapFT "ABC")[1]?).map (fun r => r.lag_cases_1) =
      some (some (casesAt (countryRows ceGapFT "ABC") 0)) := by
  have hlen : 1 < (countryRows ceGapFT "ABC").length := by
    simp +decide [countryRows, ceGapFT]
  have h := (c1_lag_previous_row ceDengueGap [] ceGapFT ceGap_run "ABC" 1 hlen).2
  simpa using h

/-- C2, counterexample: in the constant batch [5, 5] the row with the
maximal raw magnitude receives risk score 0, not 100 within epsilon (it is
off by the full 100): with zero spread the epsilon guard sends every score
to 0. -/
theorem c2_counterexample :
    riskScore [(5 : ℚ), 5] (maxD [(5 : ℚ), 5]) = 0 ∧
    ¬(100 - riskScore [(5 : ℚ), 5] (maxD [(5 : ℚ), 5]) ≤ 1) := by
  constructor <;> norm_num [riskScore, minD, maxD, epsRS]

/-- C2, amended: for every non-empty batch, every score of the line-17
rescaling lies in [0, 100]; the minimal raw magnitude scores exactly 0; the
maximal raw magnitude scores `100 * (M - m) / (M - m + eps)` — equal to 100
up to a deficit `d` characterised by `d * (M - m + eps) = 100 * eps`, which
vanishes as the batch spread dominates epsilon but equals 100 on a
zero-spread batch. -/
theorem c2_riskScore_bounds (raw : List ℚ) (h : raw ≠ []) :
    (∀ x ∈ raw, 0 ≤ riskScore raw x ∧ riskScore raw x ≤ 100) ∧
    riskScore raw (minD raw) = 0 ∧
    riskScore raw (maxD raw) =
      100 * (maxD raw - minD raw) / (maxD raw - minD raw + epsRS) ∧
    (100 - riskScore raw (maxD raw)) * (maxD raw - minD raw + epsRS) =
      100 * epsRS := by
  have hd := riskDenom_pos h
  refine ⟨?_, ?_, rfl, ?_⟩
  · intro x hx
    have h1 := minD_le hx
    have h2 := le_maxD hx
    have he := epsRS_pos
    constructor
    · unfold riskScore
      apply div_nonneg _ (le_of_lt hd)
      linarith
    · unfold riskScore
      rw [div_le_iff₀ hd]
      linarith
  · unfold riskScore
    simp
  · have hne : maxD raw - minD raw + epsRS ≠ 0 := ne_of_gt hd
    unfold riskScore
    field_simp
    ring

/-- Witness for the amended C2 on the batch [2, 7]. -/
theorem c2_riskScore_witness :
    0 ≤ riskScore [(2 : ℚ), 7] 7 ∧ riskScore [(2 : ℚ), 7] 7 ≤ 100 ∧
    riskScore [(2 : ℚ), 7] (minD [(2 : ℚ), 7]) = 0 := by
  have h := c2_riskScore_bounds [(2 : ℚ), 7] (by simp)
  have h7 := h.1 7 (by simp)
  exact ⟨h7.1, h7.2, h.2.1⟩

/-- C3, counterexample: identical population rows (MONTH granularity
only) are YEAR-restricted — to an empty series — when the dengue rows
contain a YEAR row, and MONTH-aggregated when they do not.  The population
treatment thus changes with the case rows alone, refuting the claim that it
depends only on the population rows' own time types. -/
theorem c3_counterexample :
    popYOf ceDengueYear cePopMonth = .ok (.yearly []) ∧
    popYOf ceDengueMonth cePopMonth = .ok (.monthlyAgg ceAggPop) ∧
    popYOf ceDengueYear cePopMonth ≠ popYOf ceDengueMonth cePopMonth := by
  have h1 : popYOf ceDengueYear cePopMonth = .ok (.yearly []) := by
    simp +decide [popYOf, hasYearRows, ceDengueYear, cePopMonth]
  refine ⟨h1, cePopMonth_agg, ?_⟩
  rw [h1, cePopMonth_agg]
  simp [ceAggPop]

/-- C3, amended: the YEAR/MONTH decision of step 7 is made once, from
the case rows' time types alone (line 56), and the same branch is applied
to both series: the population treatment is a function of whether any case
row has YEAR granularity, and the two series always take the same branch. -/
theorem c3_branch_from_cases (d₁ d₂ pop dengue : List Row)
    (hsame : hasYearRows d₁ = hasYearRows d₂) :
    popYOf d₁ pop = popYOf d₂ pop ∧
    (∀ dY pY, dengueYOf dengue = .ok dY → popYOf dengue pop = .ok pY →
      dY.isYearly = pY.isYearly) := by
  constructor
  · unfold popYOf
    rw [hsame]
  · intro dY pY h1 h2
    unfold dengueYOf at h1
    unfold popYOf at h2
    cases hY : hasYearRows dengue with
    | true =>
      rw [hY] at h1 h2
      simp only [if_true] at h1 h2
      cases h1
      cases h2
      rfl
    | false =>
      rw [hY] at h1 h2
      simp only [Bool.false_eq_true, if_false] at h1 h2
      cases hw : withYears (monthRows dengue) with
      | error e => rw [hw] at h1; simp [Except.map] at h1
      | ok ps =>
        rw [hw] at h1
        simp only [Except.map] at h1
        cases hw2 : withYears (monthRows pop) with
        | error e => rw [hw2] at h2; simp [Except.map] at h2
        | ok ps2 =>
          rw [hw2] at h2
          simp only [Except.map] at h2
          cases h1
          cases h2
          rfl

/-- Witness for the amended C3: two dengue inputs that agree on the
branch condition treat the population series identically. -/
theorem c3_branch_witness :
    popYOf ceDengueYear cePopMonth = popYOf ceDengueGap cePopMonth :=
  (c3_branch_from_cases ceDengueYear ceDengueGap cePopMonth [] (by decide)).1

/-- C4: every feature-table row's `cases_per_100k` equals
`dengue_cases / population * 100000` when the population is present and
nonzero, and is null when the population is missing or zero — the rate of
lines 106-108 is a total function (`replace(0, nan)` plus NaN propagation),
so no division fault is possible; and the left merge keeps every aggregated
case row: the table's grouping keys are a permutation of the dengue
groups' keys regardless of the population side. -/
theorem c4_rate_safe (dengue pop : List Row) (ft : List FRow)
    (h : preparePipeline dengue pop = .ok ft) :
    (∀ r ∈ ft,
      r.cases_per_100k = ratePer100k r.dengue_cases r.population ∧
      ((r.population = none ∨ r.population = some 0) →
        r.cases_per_100k = none) ∧
      (∀ p, r.population = some p → p ≠ 0 →
        r.cases_per_100k = some (r.dengue_cases / p * 100000))) ∧
    List.Perm (ft.map (fun r => gKeyOfM r.toMRow))
      ((dengueGroups (dengue.filter (fun r => r.time_dim_type == "YEAR"))).map
        gKeyOfD) := by
  refine ⟨?_, ftKeys_perm h⟩
  intro r hr
  obtain ⟨hY, mrows, hB, hft⟩ := pipeline_ok_elim h
  have hr1 : r.toMRow ∈
      (addFeatures [] (sortRows mrows)).map (fun fr => fr.toMRow) := by
    rw [hft] at hr
    exact List.mem_map_of_mem _ hr
  rw [addFeatures_map_toMRow] at hr1
  have hr2 : r.toMRow ∈ mrows := (sortRows_perm mrows).subset hr1
  obtain ⟨p, hp, hok⟩ := buildMRows_mem hB hr2
  obtain ⟨-, hcase, hpop, hrate⟩ := toMRow_ok_props hok
  have key : r.cases_per_100k = ratePer100k r.dengue_cases r.population := by
    rw [show r.cases_per_100k = r.toMRow.cases_per_100k from rfl, hrate,
      hcase, hpop]
  refine ⟨key, ?_, ?_⟩
  · intro hc
    rw [key]
    rcases hc with hc | hc <;> rw [hc] <;> simp [ratePer100k]
  · intro pv hpv hne
    rw [key, hpv]
    simp [ratePer100k, hne]

/-- Witness for C4 at the concrete two-row run. -/
theorem c4_rate_witness :
    List.Perm (ceGapFT.map (fun r => gKeyOfM r.toMRow))
      ((dengueGroups (ceDengueGap.filter
        (fun r => r.time_dim_type == "YEAR"))).map gKeyOfD) :=
  (c4_rate_safe ceDengueGap [] ceGapFT ceGap_run).2

/-- C5: the cloud-recalculation handler leaves the score column
untouched on every non-success outcome; in particular every transport
failure or timeout, and every response whose (string-decoded) body lacks a
`risk_score` field, is reported as an error with the previous scores
retained in full — scores are never partially overwritten on an error
path. -/
theorem c5_error_preserves_scores (decode : String → Except String JVal)
    (dfy : List AppRow) (res : ApiResult) :
    ((recalcHandler decode dfy res).2 ≠ Outcome.updated →
      (recalcHandler decode dfy res).1 = dfy) ∧
    (∀ m, res = .transportFail m →
      (recalcHandler decode dfy res).1 = dfy ∧
      (recalcHandler decode dfy res).2 ≠ Outcome.updated) ∧
    (∀ d v, res = .body d → decodeStep decode d = .ok v →
      hasRiskKey v = .ok false →
      (recalcHandler decode dfy res).1 = dfy ∧
      (recalcHandler decode dfy res).2 ≠ Outcome.updated) := by
  refine ⟨?_, ?_, ?_⟩
  · intro hne
    cases res with
    | transportFail m => rfl
    | body d0 =>
      cases hdec : decodeStep decode d0 with
      | error m => simp [recalcHandler, hdec]
      | ok d =>
        cases hk : hasRiskKey d with
        | error m => simp [recalcHandler, hdec, hk]
        | ok b =>
          cases b with
          | false => simp [recalcHandler, hdec, hk]
          | true =>
            cases hex : extractScores d with
            | error m => simp [recalcHandler, hdec, hk, hex]
            | ok rs =>
              exact absurd (by simp [recalcHandler, hdec, hk, hex]) hne
  · rintro m rfl
    exact ⟨rfl, by simp [recalcHandler]⟩
  · rintro d v rfl hdec hk
    constructor
    · simp [recalcHandler, hdec, hk]
    · simp [recalcHandler, hdec, hk]

/-- Witness for C5 at a concrete timeout. -/
theorem c5_error_witness :
    (recalcHandler (fun _ => .error "bad json") []
      (.transportFail "timeout")).1 = [] ∧
    (recalcHandler (fun _ => .error "bad json") []
      (.transportFail "timeout")).2 ≠ Outcome.updated :=
  (c5_error_preserves_scores (fun _ => .error "bad json") []
    (.transportFail "timeout")).2.1 "timeout" rfl

/-- C6, failing run: the year-filtered view's rows sat at index labels
2 and 3 of the full table, the remote response carries the scores [10, 20]
for them in submission order, the handler reports success — and both rows'
`risk_score` end up NaN (`none`): line 167's
`dfy["risk_score"] = pd.Series(data["risk_score"])` aligns the new series
on the pandas index labels, not on submission order, so the i-th submitted
record does not receive the i-th returned score. -/
theorem c6_index_alignment_eval :
    (recalcHandler (fun _ => .error "unused") ceDfy
      (.body (.obj [("risk_score", .arr [10, 20])]))).2 = Outcome.updated ∧
    ((recalcHandler (fun _ => .error "unused") ceDfy
      (.body (.obj [("risk_score", .arr [10, 20])]))).1).map
        (fun r => r.risk_score) = [none, none] := by
  constructor <;>
    simp +decide [recalcHandler, decodeStep, hasRiskKey, extractScores,
      assignScores, ceDfy, List.get?]

/-- C7: within each country's sub-sequence of the feature table (in
ascending year order), `ma3_cases` at the country's first row equals that
row's `dengue_cases`; at the second row the mean of the first two; and at
every later row the mean of the trailing three case counts including the
current row. -/
theorem c7_ma3_trailing_mean (dengue pop : List Row) (ft : List FRow)
    (h : preparePipeline dengue pop = .ok ft) (c : String) (i : ℕ)
    (hi : i < (countryRows ft c).length) :
    List.Sorted (· ≤ ·) ((countryRows ft c).map (fun r => r.year)) ∧
    ((countryRows ft c)[i]?).map (fun r => r.ma3_cases) =
      some (if i = 0 then casesAt (countryRows ft c) 0
            else if i = 1 then
              (casesAt (countryRows ft c) 0 + casesAt (countryRows ft c) 1) / 2
            else
              (casesAt (countryRows ft c) (i - 2) +
               casesAt (countryRows ft c) (i - 1) +
               casesAt (countryRows ft c) i) / 3) := by
  refine ⟨countryRows_years_asc h c, ?_⟩
  obtain ⟨rs, heq, -, -⟩ := countryRows_eq h c
  rw [heq] at hi ⊢
  rw [List.getElem?_eq_getElem hi]
  have h1 := attachF_ma3 rs i hi
  rw [List.get_eq_getElem] at h1
  rw [Option.map_some', h1]

/-- Witness for C7 at the concrete two-row table (second-row branch). -/
theorem c7_ma3_witness :
    ((countryRows ceGapFT "ABC")[1]?).map (fun r => r.ma3_cases) =
      some ((casesAt (countryRows ceGapFT "ABC") 0 +
             casesAt (countryRows ceGapFT "ABC") 1) / 2) := by
  have hlen : 1 < (countryRows ceGapFT "ABC").length := by
    simp +decide [countryRows, ceGapFT]
  have h := (c7_ma3_trailing_mean ceDengueGap [] ceGapFT ceGap_run "ABC" 1 hlen).2
  simpa using h

/-- C8, counterexample: a country code appearing under two English
name spellings in the same year yields two feature-table rows with the
same (country_code, year): the grouping key of lines 91-95 includes the
name columns, so (country_code, year) alone need not be unique. -/
theorem c8_counterexample :
    preparePipeline ceDengueDupNames [] = .ok ceDupFT ∧
    ceDupFT.map (fun r => (r.spatial_dim, r.year)) =
      [("ABC", 2020), ("ABC", 2020)] :=
  ⟨ceDup_run, rfl⟩

/-- C8, amended: after aggregation and merge the feature table has at
most one row per full grouping key
(spatial_dim, spatial_dim_en, spatial_dim_es, time_dim); per
(country_code, year) alone uniqueness holds only when the name columns are
constant for each code and distinct `time_dim` strings give distinct
years. -/
theorem c8_key_nodup (dengue pop : List Row) (ft : List FRow)
    (h : preparePipeline dengue pop = .ok ft) :
    (ft.map (fun r => gKeyOfM r.toMRow)).Nodup :=
  ((ftKeys_perm h).nodup_iff).mpr (dengueGroups_keys_nodup _)

/-- Witness for the amended C8 at the concrete two-row run. -/
theorem c8_key_nodup_witness :
    (ceGapFT.map (fun r => gKeyOfM r.toMRow)).Nodup :=
  c8_key_nodup ceDengueGap [] ceGapFT ceGap_run

/-- C9: the pipeline and the scorer are pure functions of their inputs
— the isolation forest's randomness is pinned by `random_state=42`
(modelled as the seed argument) and nothing else in the scripts is
input-dependent — so two runs over equal raw inputs produce equal feature
tables, and two scorer runs with the same seed over equal batches produce
equal risk scores. -/
theorem c9_deterministic (dengue dengue' pop pop' : List Row)
    (scoreFn : ℕ → List (ℚ × ℚ × ℚ × ℚ) → List ℚ) (seed : ℕ)
    (rows rows' : List FRow)
    (h1 : dengue = dengue') (h2 : pop = pop') (h3 : rows = rows') :
    preparePipeline dengue pop = preparePipeline dengue' pop' ∧
    scorerRun scoreFn seed rows = scorerRun scoreFn seed rows' := by
  subst h1
  subst h2
  subst h3
  exact ⟨rfl, rfl⟩

/-- Witness for C9 at concrete inputs. -/
theorem c9_deterministic_witness :
    preparePipeline ceDengueGap [] = preparePipeline ceDengueGap [] ∧
    scorerRun (fun _ _ => []) 42 ceGapFT = scorerRun (fun _ _ => []) 42 ceGapFT :=
  c9_deterministic ceDengueGap ceDengueGap [] [] (fun _ _ => []) 42 ceGapFT
    ceGapFT rfl rfl rfl

/-- C10: whenever no case row has YEAR granularity, the MONTH fallback
aggregates the population series into a frame whose columns no longer
include `indicator_name_norm`; the thousands detection of line 83 reading
that column raises `KeyError`, and the pipeline produces no feature table
on this path. -/
theorem c10_month_fallback_fails (dengue pop : List Row)
    (h : hasYearRows dengue = false) :
    (∀ pY, popYOf dengue pop = .ok pY →
      "indicator_name_norm" ∉ pY.cols ∧
      thousandsStep pY = .error "KeyError: indicator_name_norm") ∧
    (preparePipeline dengue pop).toOption = none := by
  constructor
  · intro pY hp
    unfold popYOf at hp
    rw [h] at hp
    simp only [Bool.false_eq_true, if_false] at hp
    cases hw : withYears (monthRows pop) with
    | error e => rw [hw] at hp; simp [Except.map] at hp
    | ok ps =>
      rw [hw] at hp
      simp only [Except.map] at hp
      cases hp
      refine ⟨?_, rfl⟩
      show "indicator_name_norm" ∉ monthAggCols
      decide
  · cases hres : preparePipeline dengue pop with
    | error e => rfl
    | ok ft =>
      obtain ⟨hY, -⟩ := pipeline_ok_elim hres
      rw [h] at hY
      exact absurd hY (by simp)

/-- Witness for C10 at a concrete MONTH-only input. -/
theorem c10_month_witness :
    ("indicator_name_norm" ∉ (PopY.monthlyAgg ceAggPop).cols) ∧
    thousandsStep (PopY.monthlyAgg ceAggPop) =
      .error "KeyError: indicator_name_norm" ∧
    (preparePipeline ceDengueMonth cePopMonth).toOption = none := by
  have h := c10_month_fallback_fails ceDengueMonth cePopMonth (by decide)
  exact ⟨(h.1 _ cePopMonth_agg).1, (h.1 _ cePopMonth_agg).2, h.2⟩
